import Mathlib

/-!
Verification development for the cookiecraft consent-management core.
The definitions below are shallow embeddings of the TypeScript sources:
`ConsentManager`, `StorageManager`, `ScriptBlocker`, `CategoryManager`,
`EventEmitter` and the `CookieConsent.init` / `updateConsent` orchestration.
-/

set_option linter.unusedVariables false

/-- Association-list lookup with exact string keys (JS object / Map access). -/
def lookupAssoc {β : Type} : List (String × β) → String → Option β
  | [], _ => none
  | (a, b) :: t, k => if a = k then some b else lookupAssoc t k

/-- Association-list update: JS `Map.set` / `setAttribute` semantics —
replace the value in place if the key exists, else append. -/
def setAssoc {β : Type} : List (String × β) → String → β → List (String × β)
  | [], k, v => [(k, v)]
  | (a, b) :: t, k, v => if a = k then (a, v) :: t else (a, b) :: setAssoc t k v

/-- Does `pat` occur as a prefix of `l`? Helper for substring containment. -/
def listPrefixEq : List Char → List Char → Bool
  | [], _ => true
  | _ :: _, [] => false
  | a :: as, b :: bs => a = b && listPrefixEq as bs

/-- Does `pat` occur as a contiguous run inside `hay`? -/
def listContainsSub : List Char → List Char → Bool
  | [], pat => pat.isEmpty
  | h :: t, pat => listPrefixEq pat (h :: t) || listContainsSub t pat

/-- JS `src.includes(pattern)`: substring containment on strings. -/
def strContains (s pat : String) : Bool := listContainsSub s.data pat.data

/-- A calendar date-time, mirroring the JS `Date` fields the code touches:
`month` is 0-based as in `getMonth`/`setMonth`. -/
structure DateTime where
  year : Nat
  month : Nat
  day : Nat
  hour : Nat
  minute : Nat
  second : Nat
  ms : Nat
deriving DecidableEq, Repr

/-- Gregorian leap-year rule (as implemented by JS `Date`). -/
def isLeap (y : Nat) : Bool := y % 4 = 0 && (y % 100 ≠ 0 || y % 400 = 0)

/-- Number of days in the (0-based) month `m` of year `y`. -/
def daysInMonth (y m : Nat) : Nat :=
  if m = 1 then (if isLeap y then 29 else 28)
  else if m = 3 || m = 5 || m = 8 || m = 10 then 30
  else 31

/-- `expiryDate.setMonth(expiryDate.getMonth() + 13)` from
`ConsentManager.createConsentRecord`: add 13 to the month field and let the
JS `Date` normalization roll an overflowing day-of-month into the following
month (e.g. Feb 31 becomes Mar 3). At most one carry is needed since the
day is at most 31 and every month has at least 28 days. -/
def addMonths13 (d : DateTime) : DateTime :=
  let mi := d.month + 13
  let y := d.year + mi / 12
  let m := mi % 12
  if d.day ≤ daysInMonth y m then
    ⟨y, m, d.day, d.hour, d.minute, d.second, d.ms⟩
  else if m = 11 then
    ⟨y + 1, 0, d.day - daysInMonth y m, d.hour, d.minute, d.second, d.ms⟩
  else
    ⟨y, m + 1, d.day - daysInMonth y m, d.hour, d.minute, d.second, d.ms⟩

/-- Linear month index of a date (year and month only). -/
def monthIndex (d : DateTime) : Nat := d.year * 12 + d.month

/-- `e` is exactly 13 calendar months after `d`: same day-of-month and
time-of-day, month index advanced by exactly 13. -/
def exactly13CalendarMonths (d e : DateTime) : Prop :=
  e.day = d.day ∧ e.hour = d.hour ∧ e.minute = d.minute ∧
    e.second = d.second ∧ e.ms = d.ms ∧ monthIndex e = monthIndex d + 13

instance (d e : DateTime) : Decidable (exactly13CalendarMonths d e) := by
  unfold exactly13CalendarMonths; infer_instance

/-- Numeric key that orders valid date-times chronologically (the JS `Date`
comparison compares epoch milliseconds; this key is order-isomorphic to it
on valid dates since day ≤ 31 < 32, hour < 24, etc.). -/
def dtKey (d : DateTime) : Nat :=
  (((((d.year * 12 + d.month) * 32 + d.day) * 24 + d.hour) * 60 + d.minute)
      * 60 + d.second) * 1000 + d.ms

/-- Zero-pad a number to two digits. -/
def pad2 (n : Nat) : String := if n < 10 then "0" ++ Nat.repr n else Nat.repr n

/-- Zero-pad a number to three digits. -/
def pad3 (n : Nat) : String :=
  if n < 10 then "00" ++ Nat.repr n
  else if n < 100 then "0" ++ Nat.repr n
  else Nat.repr n

/-- Zero-pad a number to four digits. -/
def pad4 (n : Nat) : String :=
  if n < 10 then "000" ++ Nat.repr n
  else if n < 100 then "00" ++ Nat.repr n
  else if n < 1000 then "0" ++ Nat.repr n
  else Nat.repr n

/-- JS `Date.prototype.toISOString`: `YYYY-MM-DDTHH:MM:SS.mmmZ`. -/
def isoString (d : DateTime) : String :=
  pad4 d.year ++ "-" ++ pad2 (d.month + 1) ++ "-" ++ pad2 d.day ++ "T" ++
    pad2 d.hour ++ ":" ++ pad2 d.minute ++ ":" ++ pad2 d.second ++ "." ++
    pad3 d.ms ++ "Z"

/-- Numeric value of a decimal digit character. -/
def digitVal (c : Char) : Option Nat :=
  if c.isDigit then some (c.toNat - 48) else none

/-- Two decimal digits. -/
def num2 (a b : Char) : Option Nat :=
  match digitVal a, digitVal b with
  | some x, some y => some (10 * x + y)
  | _, _ => none

/-- Three decimal digits. -/
def num3 (a b c : Char) : Option Nat :=
  match digitVal a, digitVal b, digitVal c with
  | some x, some y, some z => some (100 * x + 10 * y + z)
  | _, _, _ => none

/-- Four decimal digits. -/
def num4 (a b c d : Char) : Option Nat :=
  match digitVal a, digitVal b, digitVal c, digitVal d with
  | some x, some y, some z, some w => some (1000 * x + 100 * y + 10 * z + w)
  | _, _, _, _ => none

/-- `new Date(isoText)` for the fixed-width ISO format the code stores;
out-of-range or ill-formed text yields `none` (JS: an Invalid Date). -/
def parseIso (s : String) : Option DateTime :=
  match s.data with
  | [y1, y2, y3, y4, g1, mo1, mo2, g2, d1, d2, tC, hh1, hh2, c1, mi1, mi2,
      c2, ss1, ss2, dotC, x1, x2, x3, zC] =>
    if g1 = '-' && g2 = '-' && tC = 'T' && c1 = ':' && c2 = ':' &&
        dotC = '.' && zC = 'Z' then
      match num4 y1 y2 y3 y4, num2 mo1 mo2, num2 d1 d2, num2 hh1 hh2,
          num2 mi1 mi2, num2 ss1 ss2, num3 x1 x2 x3 with
      | some y, some mo, some dd, some hh, some mi, some ss, some xs =>
        if 1 ≤ mo && mo ≤ 12 && 1 ≤ dd && dd ≤ daysInMonth y (mo - 1) &&
            hh < 24 && mi < 60 && ss < 60 then
          some ⟨y, mo - 1, dd, hh, mi, ss, xs⟩
        else none
      | _, _, _, _, _, _, _ => none
    else none
  | _ => none

/-- A JSON value (what `JSON.parse` can yield for the stored record). -/
inductive Json where
  | null
  | bool (b : Bool)
  | num (n : Int)
  | str (s : String)
  | arr (xs : List Json)
  | obj (fields : List (String × Json))

/-- Consent categories as the runtime object: category key to boolean. -/
abbrev Categories := List (String × Bool)

/-- The parts of `ConsentConfig` the core consults: the policy revision,
the keys of `config.categories`, and `autoShow`. -/
structure ConsentConfig where
  revision : Int
  categories : List String
  autoShow : Bool
deriving DecidableEq, Repr

/-- `ConsentRecord` from `src/types`: `timestamp` and `expiresAt` are the
ISO strings `createConsentRecord` produces. -/
structure ConsentRecord where
  version : Int
  timestamp : String
  categories : Categories
  userAgent : String
  expiresAt : String
deriving DecidableEq, Repr

/-- A script element: its attributes, `type` property, `src` (empty string
when inline, as JS `script.src` is falsy) and text content. -/
structure Script where
  attrs : List (String × String)
  stype : String
  src : String
  text : String
deriving DecidableEq, Repr

/-- A category registry: category name to URL substring patterns, in
registration order (JS `Map` iterates in insertion order). -/
abbrev Registry := List (String × List String)

namespace CategoryManager

/-- The patterns installed by the CategoryManager constructor. -/
def defaultRegistry : Registry :=
  [("analytics",
    ["google-analytics.com", "googletagmanager.com", "analytics.google.com",
     "plausible.io", "matomo.org", "hotjar.com", "mixpanel.com",
     "segment.com", "amplitude.com"]),
   ("marketing",
    ["facebook.net", "facebook.com/tr", "connect.facebook.net",
     "doubleclick.net", "ads.google.com", "linkedin.com/analytics",
     "twitter.com/i/adsct", "pinterest.com/ct", "adroll.com", "taboola.com",
     "outbrain.com"]),
   ("necessary", [])]

/-- URL-pattern fallback of `getCategoryForScript`: first registered
category one of whose patterns is contained in the script source URL. -/
def matchBySrc (reg : Registry) (s : Script) : Option String :=
  if s.src = "" then none
  else
    match reg.find? (fun p => p.2.any (fun pat => strContains s.src pat)) with
    | some p => some p.1
    | none => none

/-- `CategoryManager.getCategoryForScript`: a non-empty explicit
`data-cookieconsent` attribute wins (JS truthiness: the empty string does
not), otherwise match the source URL against the registry. -/
def getCategoryForScript (reg : Registry) (s : Script) : Option String :=
  match lookupAssoc s.attrs "data-cookieconsent" with
  | some v => if v ≠ "" then some v else matchBySrc reg s
  | none => matchBySrc reg s

/-- `CategoryManager.isAllowed`: `consent[category] === true`. -/
def isAllowed (category : String) (consent : Categories) : Bool :=
  match lookupAssoc consent category with
  | some b => b
  | none => false

end CategoryManager

/-- The error thrown by `ConsentManager.updateConsent` on validation
failure (the spec's `InvalidConsentError`). -/
inductive ConsentError where
  | invalidConsent (msg : String)
deriving DecidableEq, Repr

/-- The property names every plain object inherits from
`Object.prototype` (which the JS `in` operator also finds). -/
def objectPrototypeKeys : List String :=
  ["constructor", "hasOwnProperty", "isPrototypeOf", "propertyIsEnumerable",
   "toLocaleString", "toString", "valueOf", "__proto__", "__defineGetter__",
   "__defineSetter__", "__lookupGetter__", "__lookupSetter__"]

/-- JS `key in obj` for a plain object literal with the given own keys:
true for an own key or for any property inherited from
`Object.prototype`. -/
def jsKeyInObject (ownKeys : List String) (k : String) : Bool :=
  ownKeys.contains k || objectPrototypeKeys.contains k

namespace ConsentManager

/-- `ConsentManager.validateConsent`: `necessary` must be truthy, and every
key of the submitted mapping must pass `key in this.config.categories` —
the JS `in` operator, which accepts the object's own keys and the
properties inherited from `Object.prototype`. -/
def validateConsent (cfg : ConsentConfig) (cats : Categories) : Bool :=
  match lookupAssoc cats "necessary" with
  | some true => cats.all (fun p => jsKeyInObject cfg.categories p.1)
  | _ => false

/-- `ConsentManager.createConsentRecord`: stamp with the current policy
revision, ISO timestamp, a snapshot of the categories, and an expiry 13
months ahead via `setMonth(getMonth() + 13)`. -/
def createConsentRecord (cfg : ConsentConfig) (cats : Categories)
    (ua : String) (now : DateTime) : ConsentRecord :=
  { version := cfg.revision
    timestamp := isoString now
    categories := cats
    userAgent := ua
    expiresAt := isoString (addMonths13 now) }

/-- The mutable `this.consent` field of `ConsentManager`: unset until
`updateConsent` first succeeds in the session. -/
structure State where
  consent : Option ConsentRecord
deriving DecidableEq, Repr

/-- `ConsentManager.updateConsent`: validate, then create and remember a
record; throw on invalid categories. -/
def updateConsent (cfg : ConsentConfig) (st : State) (cats : Categories)
    (ua : String) (now : DateTime) :
    Except ConsentError (State × ConsentRecord) :=
  if validateConsent cfg cats then
    let r := createConsentRecord cfg cats ua now
    .ok ({ consent := some r }, r)
  else .error (.invalidConsent "Invalid consent categories")

/-- `ConsentManager.needsConsent`: `this.consent === undefined`. -/
def needsConsent (st : State) : Bool := st.consent.isNone

/-- `ConsentManager.needsUpdate`: the stored record's version is strictly
below the current policy revision. -/
def needsUpdate (cfg : ConsentConfig) (stored : ConsentRecord) : Bool :=
  stored.version < cfg.revision

end ConsentManager

namespace StorageManager

/-- What the single storage slot can hold: well-formed JSON text (kept as
the parsed value) or text `JSON.parse` rejects. -/
inductive Stored where
  | json (j : Json)
  | malformed (raw : String)

/-- The `localStorage` slot at the fixed storage key. -/
abbrev Storage := Option Stored

/-- `JSON.parse` on the stored text: throws on malformed text. -/
def parse : Stored → Except String Json
  | .json j => .ok j
  | .malformed _ => .error "SyntaxError: Unexpected token"

/-- Serialization of a `ConsentRecord` (the JSON value
`JSON.stringify` writes and `JSON.parse` reads back). -/
def recordToJson (r : ConsentRecord) : Json :=
  .obj [("version", .num r.version),
        ("timestamp", .str r.timestamp),
        ("categories", .obj (r.categories.map (fun p => (p.1, Json.bool p.2)))),
        ("userAgent", .str r.userAgent),
        ("expiresAt", .str r.expiresAt)]

/-- `typeof x === 'number'` on an object field. -/
def fieldIsNum : Option Json → Bool
  | some (.num _) => true
  | _ => false

/-- `typeof x === 'string'` on an object field. -/
def fieldIsStr : Option Json → Bool
  | some (.str _) => true
  | _ => false

/-- `typeof x === 'object'` on an object field (JS: objects, arrays and
`null` all satisfy it). -/
def fieldIsObj : Option Json → Bool
  | some (.obj _) => true
  | some (.arr _) => true
  | some .null => true
  | _ => false

/-- `StorageManager.validateSchema`: the parsed value must be truthy and
each required field must have the required `typeof`. -/
def validateSchema (j : Json) : Bool :=
  match j with
  | .obj fs =>
    fieldIsNum (lookupAssoc fs "version") &&
      fieldIsStr (lookupAssoc fs "timestamp") &&
      fieldIsObj (lookupAssoc fs "categories") &&
      fieldIsStr (lookupAssoc fs "userAgent") &&
      fieldIsStr (lookupAssoc fs "expiresAt")
  | _ => false

/-- `StorageManager.migrate`: no migration exists for v1 — always `null`. -/
def migrate (_ : Json) : Option Json := none

/-- Decode a categories object whose values are all booleans. -/
def decodeCats : List (String × Json) → Option Categories
  | [] => some []
  | (k, .bool b) :: t => (decodeCats t).map (fun cs => (k, b) :: cs)
  | _ => none

/-- Read a stored JSON value back as a `ConsentRecord` (deep equality of
the loaded value with a record is `decodeRecord` yielding that record). -/
def decodeRecord (j : Json) : Option ConsentRecord :=
  match j with
  | .obj fs =>
    match lookupAssoc fs "version", lookupAssoc fs "timestamp",
        lookupAssoc fs "categories", lookupAssoc fs "userAgent",
        lookupAssoc fs "expiresAt" with
    | some (.num v), some (.str ts), some (.obj cf), some (.str ua),
        some (.str ex) =>
      (decodeCats cf).map (fun cs => ⟨v, ts, cs, ua, ex⟩)
    | _, _, _, _, _ => none
  | _ => none

/-- The body of `StorageManager.load` before its catch-all handler:
`getItem` (absent gives null), `JSON.parse` (may throw), schema check,
migration attempt. -/
def loadRaw (st : Storage) : Except String (Option Json) :=
  match st with
  | none => .ok none
  | some stored => do
    let j ← parse stored
    if validateSchema j then
      return (some j)
    else
      match migrate j with
      | some m => return (some m)
      | none => return none

/-- `StorageManager.load`: any exception from the body is caught and
degraded to "no stored record". -/
def load (st : Storage) : Option Json :=
  match loadRaw st with
  | .ok r => r
  | .error _ => none

/-- The body of `StorageManager.save` before its catch handler:
`setItem` throws when the storage quota is exceeded. -/
def saveRaw (st : Storage) (j : Json) (quotaFail : Bool) :
    Except String Storage :=
  if quotaFail then .error "QuotaExceededError" else .ok (some (.json j))

/-- `StorageManager.save`: a write failure is caught and logged; the slot
is left as it was and no exception reaches the caller. -/
def save (st : Storage) (j : Json) (quotaFail : Bool) : Storage :=
  match saveRaw st j quotaFail with
  | .ok st2 => st2
  | .error _ => st

/-- `StorageManager.isExpired`: `new Date(consent.expiresAt) < new Date()`.
When the stored expiry text does not parse, the JS NaN comparison is false,
so the record counts as not expired. -/
def isExpired (r : ConsentRecord) (now : DateTime) : Bool :=
  match parseIso r.expiresAt with
  | some e => dtKey e < dtKey now
  | none => false

end StorageManager

namespace ScriptBlocker

/-- The mutable state of `ScriptBlocker`: the withheld-set (insertion
ordered, keyed by script identity), the consent last applied, and a
freshness counter standing in for the `Date.now()`/`Math.random()` id
generated for inline scripts. -/
structure State where
  blockedScripts : List (String × Script)
  currentConsent : Option Categories
  nextInlineId : Nat
deriving DecidableEq, Repr

/-- The blocker state at startup. -/
def initState : State :=
  { blockedScripts := [], currentConsent := none, nextInlineId := 0 }

/-- `ScriptBlocker.generateScriptId`: `script.src` when present, otherwise
a synthesized inline identity. -/
def generateScriptId (st : State) (s : Script) : String :=
  if s.src ≠ "" then s.src else "inline-" ++ Nat.repr st.nextInlineId

/-- `ScriptBlocker.processScript`, run on every script carrying the gating
marker during the initial pass and at observed insertion: resolve the
category (an unresolvable script is left alone — fail open); skip when the
current consent already allows it; otherwise, unless the type is already
the withheld type, record the original type in `data-original-type`,
rewrite the type to `text/plain` and store it in the withheld-set. -/
def processScript (reg : Registry) (st : State) (s : Script) :
    State × Script :=
  match CategoryManager.getCategoryForScript reg s with
  | none => (st, s)
  | some cat =>
    let allowedNow :=
      match st.currentConsent with
      | some consent => CategoryManager.isAllowed cat consent
      | none => false
    if allowedNow then (st, s)
    else if s.stype ≠ "text/plain" then
      let origType := if s.stype = "" then "text/javascript" else s.stype
      let s2 :=
        { s with
          attrs := setAssoc s.attrs "data-original-type" origType
          stype := "text/plain" }
      let id := generateScriptId st s
      ({ st with
          blockedScripts := setAssoc st.blockedScripts id s2
          nextInlineId :=
            if s.src = "" then st.nextInlineId + 1 else st.nextInlineId },
        s2)
    else (st, s)

/-- `ScriptBlocker.reactivateScript`: the fresh node inserted in place of a
withheld script — original attributes except `type`/`data-original-type`,
the preserved original type (falling back to `text/javascript`), and the
`src` or inline body copied verbatim. -/
def reactivateScript (s : Script) : Script :=
  { attrs := s.attrs.filter
      (fun p => p.1 ≠ "type" && p.1 ≠ "data-original-type")
    stype :=
      match lookupAssoc s.attrs "data-original-type" with
      | some v => if v = "" then "text/javascript" else v
      | none => "text/javascript"
    src := s.src
    text := if s.src = "" then s.text else "" }

/-- Is the script's resolved category allowed under `cats`? (The guard of
the release loop in `ScriptBlocker.unblock`; a `null` category never is.) -/
def scriptAllowed (reg : Registry) (cats : Categories) (s : Script) : Bool :=
  match CategoryManager.getCategoryForScript reg s with
  | some c => CategoryManager.isAllowed c cats
  | none => false

/-- `ScriptBlocker.unblock`: remember the consent, walk the withheld-set in
order, reactivate every entry whose resolved category is allowed and drop
it from the set; entries not allowed stay withheld. Returns the new state
and the replacement nodes inserted, in release order. -/
def unblock (reg : Registry) (st : State) (cats : Categories) :
    State × List Script :=
  ({ blockedScripts :=
      st.blockedScripts.filter (fun p => ! scriptAllowed reg cats p.2)
     currentConsent := some cats
     nextInlineId := st.nextInlineId },
   (st.blockedScripts.filter (fun p => scriptAllowed reg cats p.2)).map
     (fun p => reactivateScript p.2))

end ScriptBlocker

namespace EventEmitter

/-- A subscribed handler: its JS function identity and its behavior, which
may throw. -/
structure Handler where
  id : Nat
  run : Option Json → Except String Unit

/-- The emitter's `events` map: event name to its handler set, in
insertion order (JS `Set` iterates in insertion order). -/
abbrev State := List (String × List Handler)

/-- The handlers currently subscribed to `ev`. -/
def subscribers (st : State) (ev : String) : List Handler :=
  (lookupAssoc st ev).getD []

/-- JS `Set.add`: a handler already present (same function identity) is
not added again. -/
def addHandler (hs : List Handler) (h : Handler) : List Handler :=
  if hs.any (fun g => g.id = h.id) then hs else hs ++ [h]

/-- `EventEmitter.on` (`on` is reserved in Lean): create the event's
handler set if needed and add the callback. -/
def onEvent (st : State) (ev : String) (h : Handler) : State :=
  setAssoc st ev (addHandler (subscribers st ev) h)

/-- The per-handler try/catch inside `emit`: a thrown error is caught (and
logged) rather than propagated. -/
def runCaught (h : Handler) (d : Option Json) : Option String :=
  match h.run d with
  | .ok _ => none
  | .error e => some e

/-- The `forEach` loop of `emit`: invoke each handler once, in order, each
under its own catch; record which handler ran and what error it raised. -/
def emitGo : List Handler → Option Json → List (Nat × Option String)
  | [], _ => []
  | h :: t, d => (h.id, runCaught h d) :: emitGo t d

/-- `EventEmitter.emit`: run every handler subscribed to `ev` (none when
the event is unknown). -/
def emit (st : State) (ev : String) (d : Option Json) :
    List (Nat × Option String) :=
  emitGo (subscribers st ev) d

end EventEmitter

namespace CookieConsent

/-- What `CookieConsent.init` decides to do once storage is consulted. -/
inductive InitAction where
  | showBanner
  | applyStored (cats : Categories)
  | idle
deriving DecidableEq, Repr

/-- The consent-handling branch of `CookieConsent.init`: an expired or
absent record (or a stale one, under `autoShow`) leads to the banner — the
stored decision is applied only when the record is current and fresh. -/
def initDecision (cfg : ConsentConfig) (stored : Option ConsentRecord)
    (now : DateTime) : InitAction :=
  match stored with
  | some r =>
    if StorageManager.isExpired r now then
      if cfg.autoShow then .showBanner else .idle
    else if ConsentManager.needsUpdate cfg r then
      if cfg.autoShow then .showBanner else .idle
    else .applyStored r.categories
  | none => if cfg.autoShow then .showBanner else .idle

/-- The state `CookieConsent.updateConsent` touches. -/
structure SysState where
  mgr : ConsentManager.State
  storage : StorageManager.Storage
  blocker : ScriptBlocker.State

/-- `CookieConsent.updateConsent`: submit a decision. The evaluator may
throw, and the throw happens before any persistence or gating, so a failed
call leaves the whole state unchanged and surfaces the error. -/
def updateConsent (cfg : ConsentConfig) (reg : Registry) (st : SysState)
    (cats : Categories) (ua : String) (now : DateTime) (quotaFail : Bool) :
    SysState × Option ConsentError :=
  match ConsentManager.updateConsent cfg st.mgr cats ua now with
  | .error e => (st, some e)
  | .ok (mgr2, record) =>
    let storage2 :=
      StorageManager.save st.storage (StorageManager.recordToJson record)
        quotaFail
    let blocker2 := (ScriptBlocker.unblock reg st.blocker cats).1
    ({ mgr := mgr2, storage := storage2, blocker := blocker2 }, none)

end CookieConsent

/-- Invariant on the restoration attribute: whenever `data-original-type`
is present, it holds neither the withheld type nor the empty string — an
executable type in this system. -/
def origTypeSafe (s : Script) : Prop :=
  ∀ v, lookupAssoc s.attrs "data-original-type" = some v →
    v ≠ "text/plain" ∧ v ≠ ""

/-- A gating-marked script whose marker value is empty and whose source is
empty: its category resolves to `null`. -/
def nullCatScript : Script :=
  ⟨[("data-cookieconsent", "")], "text/javascript", "", "stub()"⟩

/-- A stored consent record stamped at policy revision 1, expiring well in
the future. -/
def staleRecord : ConsentRecord :=
  ⟨1, "2025-01-01T00:00:00.000Z", [("necessary", true), ("analytics", true)],
    "Mozilla/5.0", "2026-06-01T00:00:00.000Z"⟩

/-- A configuration whose policy revision has been bumped to 2. -/
def bumpedCfg : ConsentConfig := ⟨2, ["necessary", "analytics", "marketing"], true⟩

/-- A session instant before `staleRecord` expires. -/
def nowOct : DateTime := ⟨2025, 9, 11, 12, 0, 0, 0⟩

/-- A decision with the required `necessary` category set to false. -/
def noNecessaryCats : Categories := [("necessary", false), ("analytics", true)]

/-- A baseline configuration at revision 1. -/
def baseCfg : ConsentConfig := ⟨1, ["necessary", "analytics", "marketing"], true⟩

/-- The fresh system state: no in-memory record, empty storage, blocker at
startup. -/
def baseSys : CookieConsent.SysState := ⟨⟨none⟩, none, ScriptBlocker.initState⟩

/-- A month-end stamping instant (Jan 31, 2025). -/
def monthEnd : DateTime := ⟨2025, 0, 31, 10, 30, 0, 0⟩

/-- A mid-month stamping instant (May 15, 2025). -/
def midMonth : DateTime := ⟨2025, 4, 15, 8, 0, 0, 0⟩

/-- A decision granting analytics, refusing marketing. -/
def cats5 : Categories :=
  [("analytics", true), ("marketing", false), ("necessary", true)]

/-- A withheld analytics script (explicitly marked). -/
def gaScript : Script :=
  ⟨[("data-cookieconsent", "analytics"),
    ("data-original-type", "text/javascript")], "text/plain",
    "https://www.google-analytics.com/ga.js", ""⟩

/-- A withheld marketing script (explicitly marked). -/
def fbScript : Script :=
  ⟨[("data-cookieconsent", "marketing"),
    ("data-original-type", "text/javascript")], "text/plain",
    "https://connect.facebook.net/en_US/fbevents.js", ""⟩

/-- A withheld-set holding one analytics and one marketing script. -/
def withheldTwo : ScriptBlocker.State :=
  ⟨[("https://www.google-analytics.com/ga.js", gaScript),
    ("https://connect.facebook.net/en_US/fbevents.js", fbScript)], none, 0⟩

/-- A decision carrying a category key the policy does not define. -/
def extraKeyCats : Categories := [("necessary", true), ("social", true)]

/-- A decision carrying a key the policy does not define but which every
plain object inherits from `Object.prototype`. -/
def protoKeyCats : Categories := [("necessary", true), ("constructor", true)]

/-- A subscriber whose callback always throws. -/
def hBoom : EventEmitter.Handler := ⟨1, fun _ => .error "boom"⟩

/-- A subscriber whose callback succeeds. -/
def hOk : EventEmitter.Handler := ⟨2, fun _ => .ok ()⟩

/-- An emitter with the throwing subscriber registered before the healthy
one on the same event. -/
def emitterTwo : EventEmitter.State :=
  EventEmitter.onEvent (EventEmitter.onEvent [] "consent:update" hBoom)
    "consent:update" hOk

/-- An already-withheld inline script, as a prior blocking pass leaves it. -/
def blockedInline : Script :=
  ⟨[("data-cookieconsent", "analytics"),
    ("data-original-type", "text/javascript")], "text/plain", "", "track()"⟩

/-- A not-yet-processed marked script with an empty `type` property. -/
def freshScript : Script :=
  ⟨[("data-cookieconsent", "analytics")], "", "https://www.hotjar.com/h.js", ""⟩

theorem lookupAssoc_setAssoc_self {β : Type} (l : List (String × β))
    (k : String) (v : β) : lookupAssoc (setAssoc l k v) k = some v := by
  induction l with
  | nil => simp [setAssoc, lookupAssoc]
  | cons hd tl ih =>
    obtain ⟨a, b⟩ := hd
    by_cases h : a = k
    · simp [setAssoc, lookupAssoc, h]
    · simp [setAssoc, lookupAssoc, h, ih]

theorem emitGo_map_fst (hs : List EventEmitter.Handler) (d : Option Json) :
    (EventEmitter.emitGo hs d).map Prod.fst =
      hs.map EventEmitter.Handler.id := by
  induction hs with
  | nil => rfl
  | cons h t ih => simp [EventEmitter.emitGo, ih]

theorem emitGo_append (as bs : List EventEmitter.Handler) (d : Option Json) :
    EventEmitter.emitGo (as ++ bs) d =
      EventEmitter.emitGo as d ++ EventEmitter.emitGo bs d := by
  induction as with
  | nil => rfl
  | cons h t ih => simp [EventEmitter.emitGo, ih]

theorem decodeCats_map (cs : Categories) :
    StorageManager.decodeCats (cs.map (fun p => (p.1, Json.bool p.2))) =
      some cs := by
  induction cs with
  | nil => rfl
  | cons hd tl ih => simp [StorageManager.decodeCats, ih]

theorem processScript_cases (reg : Registry) (st : ScriptBlocker.State)
    (s : Script) :
    ScriptBlocker.processScript reg st s = (st, s) ∨
    (s.stype ≠ "text/plain" ∧
      (ScriptBlocker.processScript reg st s).2 =
        { s with
          attrs := setAssoc s.attrs "data-original-type"
            (if s.stype = "" then "text/javascript" else s.stype)
          stype := "text/plain" }) := by
  simp only [ScriptBlocker.processScript]
  split
  · exact Or.inl rfl
  · split
    · exact Or.inl rfl
    · split
      · next hne => exact Or.inr ⟨hne, rfl⟩
      · exact Or.inl rfl


/-- C1 (counterexample): at a concrete script carrying the gating marker
whose category resolves to null, `processScript` leaves both the script
and the withheld-set untouched — the script is NOT placed in the
withheld-set, refuting the claim that it is engaged into it. -/
theorem nullCategory_not_withheld_cex :
    lookupAssoc nullCatScript.attrs "data-cookieconsent" = some "" ∧
    CategoryManager.getCategoryForScript CategoryManager.defaultRegistry
      nullCatScript = none ∧
    ScriptBlocker.processScript CategoryManager.defaultRegistry
      ScriptBlocker.initState nullCatScript =
      (ScriptBlocker.initState, nullCatScript) ∧
    (ScriptBlocker.processScript CategoryManager.defaultRegistry
        ScriptBlocker.initState nullCatScript).1.blockedScripts = [] := by
  refine ⟨rfl, by decide, by decide, by decide⟩

/-- C1 (amended): a script carrying the gating marker whose category
resolves to null is never placed in the withheld-set: `processScript`
returns the state and the script unchanged (fail open), so no `release`
call can ever involve it. -/
theorem nullCategory_script_fail_open (reg : Registry)
    (st : ScriptBlocker.State) (s : Script) (v : String)
    (hmark : lookupAssoc s.attrs "data-cookieconsent" = some v)
    (hnull : CategoryManager.getCategoryForScript reg s = none) :
    ScriptBlocker.processScript reg st s = (st, s) := by
  unfold ScriptBlocker.processScript
  rw [hnull]

/-- Witness for C1's amended theorem at the concrete null-category script. -/
theorem nullCategory_script_fail_open_witness :
    ScriptBlocker.processScript CategoryManager.defaultRegistry
      ScriptBlocker.initState nullCatScript =
      (ScriptBlocker.initState, nullCatScript) :=
  nullCategory_script_fail_open CategoryManager.defaultRegistry
    ScriptBlocker.initState nullCatScript "" (by decide) (by decide)

/-- C2 (counterexample): in the concrete scenario — stored record at
policy revision 1, current revision 2, record not expired — `needsConsent`
returns true, not false as the claim states (the in-memory record a fresh
session starts with is unset; `needsConsent` never consults storage), even
though the re-consent behavior the claim describes does hold. -/
theorem stale_record_needsConsent_cex :
    StorageManager.isExpired staleRecord nowOct = false ∧
    ConsentManager.needsUpdate bumpedCfg staleRecord = true ∧
    ConsentManager.needsConsent ⟨none⟩ = true ∧
    ¬ ConsentManager.needsConsent ⟨none⟩ = false ∧
    CookieConsent.initDecision bumpedCfg (some staleRecord) nowOct =
      .showBanner := by
  refine ⟨by decide, by decide, rfl, by decide, by decide⟩

/-- C2 (amended): with a valid, non-expired stored record stamped at an
older policy revision, `needsConsent` on the fresh session state returns
true, `needsUpdate` (isStale) returns true, and `init` shows the banner —
requesting re-consent instead of applying the old decision. -/
theorem stale_record_reconsent (cfg : ConsentConfig) (r : ConsentRecord)
    (now : DateTime) (hauto : cfg.autoShow = true)
    (hfresh : StorageManager.isExpired r now = false)
    (hstale : r.version < cfg.revision) :
    ConsentManager.needsConsent ⟨none⟩ = true ∧
    ConsentManager.needsUpdate cfg r = true ∧
    CookieConsent.initDecision cfg (some r) now = .showBanner := by
  have hupd : ConsentManager.needsUpdate cfg r = true := decide_eq_true hstale
  refine ⟨rfl, hupd, ?_⟩
  simp only [CookieConsent.initDecision]
  rw [hfresh, hupd, hauto]
  simp

/-- Witness for C2's amended theorem at the concrete stale-record
scenario. -/
theorem stale_record_reconsent_witness :
    ConsentManager.needsConsent ⟨none⟩ = true ∧
    ConsentManager.needsUpdate bumpedCfg staleRecord = true ∧
    CookieConsent.initDecision bumpedCfg (some staleRecord) nowOct =
      .showBanner :=
  stale_record_reconsent bumpedCfg staleRecord nowOct rfl (by decide)
    (by decide)

/-- C3: a decision whose `necessary` category is false or absent fails
validation, makes the submission API raise the invalid-consent error, and
leaves the entire system state — the stored record included — unchanged. -/
theorem invalid_necessary_rejected (cfg : ConsentConfig) (reg : Registry)
    (st : CookieConsent.SysState) (cats : Categories) (ua : String)
    (now : DateTime) (quotaFail : Bool)
    (hnec : lookupAssoc cats "necessary" ≠ some true) :
    ConsentManager.validateConsent cfg cats = false ∧
    CookieConsent.updateConsent cfg reg st cats ua now quotaFail =
      (st, some (.invalidConsent "Invalid consent categories")) := by
  have hval : ConsentManager.validateConsent cfg cats = false := by
    unfold ConsentManager.validateConsent
    split
    · next heq => exact absurd heq hnec
    · rfl
  refine ⟨hval, ?_⟩
  unfold CookieConsent.updateConsent ConsentManager.updateConsent
  rw [hval]
  simp

/-- Witness for C3 at a concrete refused decision. -/
theorem invalid_necessary_rejected_witness :
    ConsentManager.validateConsent baseCfg noNecessaryCats = false ∧
    CookieConsent.updateConsent baseCfg CategoryManager.defaultRegistry
      baseSys noNecessaryCats "Mozilla/5.0" nowOct false =
      (baseSys, some (.invalidConsent "Invalid consent categories")) :=
  invalid_necessary_rejected baseCfg CategoryManager.defaultRegistry baseSys
    noNecessaryCats "Mozilla/5.0" nowOct false (by decide)

/-- C4 (counterexample): stamping at the concrete month-end instant
Jan 31, 2025 yields `expiresAt` of Mar 3, 2026 — the JS
`setMonth(getMonth() + 13)` day-overflow — whose distance from the
timestamp is NOT exactly 13 calendar months (the day-of-month differs and
the month index advances by 14), refuting "exactly 13 months for any
input". -/
theorem thirteen_months_overflow_cex :
    (ConsentManager.createConsentRecord baseCfg [("necessary", true)]
        "Mozilla/5.0" monthEnd).timestamp = "2025-01-31T10:30:00.000Z" ∧
    (ConsentManager.createConsentRecord baseCfg [("necessary", true)]
        "Mozilla/5.0" monthEnd).expiresAt = "2026-03-03T10:30:00.000Z" ∧
    addMonths13 monthEnd = ⟨2026, 2, 3, 10, 30, 0, 0⟩ ∧
    ¬ exactly13CalendarMonths monthEnd (addMonths13 monthEnd) := by
  refine ⟨by decide, by decide, by decide, by decide⟩

/-- C4 (amended): the record stamped by `createConsentRecord` carries
`timestamp` = now and `expiresAt` = now advanced 13 months by the JS
`setMonth` rule; whenever the timestamp's day-of-month exists in the
target month (it always does for days up to 28), that expiry is exactly 13
calendar months after the timestamp — same day and time, month index
advanced by exactly 13. Month-end days that overflow the target month
spill a few days further. -/
theorem expiry_thirteen_calendar_months (cfg : ConsentConfig)
    (cats : Categories) (ua : String) (d : DateTime)
    (hm : d.month < 12)
    (hday : d.day ≤ daysInMonth (d.year + (d.month + 13) / 12)
        ((d.month + 13) % 12)) :
    (ConsentManager.createConsentRecord cfg cats ua d).timestamp =
      isoString d ∧
    (ConsentManager.createConsentRecord cfg cats ua d).expiresAt =
      isoString (addMonths13 d) ∧
    exactly13CalendarMonths d (addMonths13 d) := by
  refine ⟨rfl, rfl, ?_⟩
  unfold addMonths13 exactly13CalendarMonths monthIndex
  simp only [if_pos hday]
  refine ⟨?_, ?_, ?_, ?_, ?_, ?_⟩ <;> first
  | trivial
  | omega

/-- Witness for C4's amended theorem at a concrete mid-month instant. -/
theorem expiry_thirteen_calendar_months_witness :
    (ConsentManager.createConsentRecord baseCfg [("necessary", true)]
        "Mozilla/5.0" midMonth).timestamp = isoString midMonth ∧
    (ConsentManager.createConsentRecord baseCfg [("necessary", true)]
        "Mozilla/5.0" midMonth).expiresAt =
      isoString (addMonths13 midMonth) ∧
    exactly13CalendarMonths midMonth (addMonths13 midMonth) :=
  expiry_thirteen_calendar_months baseCfg [("necessary", true)]
    "Mozilla/5.0" midMonth (by decide) (by decide)

/-- C6 (counterexample): the claim fails at a concrete mapping whose extra
key `constructor` is absent from the policy's category set: the JS `in`
check `key in this.config.categories` also finds the properties a plain
object inherits from `Object.prototype`, so `validateConsent` accepts the
mapping and returns true, not false. -/
theorem prototype_key_accepted_cex :
    baseCfg.categories.contains "constructor" = false ∧
    ConsentManager.validateConsent baseCfg protoKeyCats = true := by
  refine ⟨by decide, by decide⟩

/-- C6 (amended): a submitted mapping containing a category key that is
absent from the policy's category set and is not one of the property
names inherited from `Object.prototype` is rejected by `validateConsent`,
for every policy; prototype-inherited names (`constructor`, `toString`,
...) slip through the JS `in` check. -/
theorem extra_key_rejected (cfg : ConsentConfig) (cats : Categories)
    (k : String) (b : Bool) (hmem : (k, b) ∈ cats)
    (hnot : cfg.categories.contains k = false)
    (hnotproto : objectPrototypeKeys.contains k = false) :
    ConsentManager.validateConsent cfg cats = false := by
  have hkey : jsKeyInObject cfg.categories k = false := by
    unfold jsKeyInObject
    rw [hnot, hnotproto]
    rfl
  unfold ConsentManager.validateConsent
  split
  · next heq =>
    cases hall : cats.all (fun p => jsKeyInObject cfg.categories p.1) with
    | false => rfl
    | true =>
      exfalso
      rw [List.all_eq_true] at hall
      have h2 := hall (k, b) hmem
      simp only at h2
      rw [hkey] at h2
      cases h2
  · rfl

/-- Witness for C6's amended theorem at a concrete mapping with an unknown
non-prototype key. -/
theorem extra_key_rejected_witness :
    ConsentManager.validateConsent baseCfg extraKeyCats = false :=
  extra_key_rejected baseCfg extraKeyCats "social" true (by decide)
    (by decide) (by decide)

/-- C5: releasing with analytics granted and marketing refused removes and
reactivates every withheld script resolving to `analytics`, keeps every
`marketing`-resolving script withheld, and a second identical `release`
changes nothing and reactivates nothing (released entries are gone from
the withheld-set). -/
theorem release_analytics_idempotent (reg : Registry)
    (st : ScriptBlocker.State) (e : String × Script) :
    (e ∈ st.blockedScripts →
      CategoryManager.getCategoryForScript reg e.2 = some "analytics" →
      e ∉ (ScriptBlocker.unblock reg st cats5).1.blockedScripts ∧
        ScriptBlocker.reactivateScript e.2 ∈
          (ScriptBlocker.unblock reg st cats5).2) ∧
    (e ∈ st.blockedScripts →
      CategoryManager.getCategoryForScript reg e.2 = some "marketing" →
      e ∈ (ScriptBlocker.unblock reg st cats5).1.blockedScripts) ∧
    ScriptBlocker.unblock reg (ScriptBlocker.unblock reg st cats5).1 cats5 =
      ((ScriptBlocker.unblock reg st cats5).1, []) := by
  refine ⟨?_, ?_, ?_⟩
  · intro hmem hcat
    have hallow : ScriptBlocker.scriptAllowed reg cats5 e.2 = true := by
      unfold ScriptBlocker.scriptAllowed
      rw [hcat]
      decide
    constructor
    · intro hmem2
      simp only [ScriptBlocker.unblock] at hmem2
      have h3 := (List.mem_filter.mp hmem2).2
      rw [hallow] at h3
      simp at h3
    · simp only [ScriptBlocker.unblock]
      exact List.mem_map.mpr ⟨e, List.mem_filter.mpr ⟨hmem, hallow⟩, rfl⟩
  · intro hmem hcat
    have hallow : ScriptBlocker.scriptAllowed reg cats5 e.2 = false := by
      unfold ScriptBlocker.scriptAllowed
      rw [hcat]
      decide
    simp only [ScriptBlocker.unblock]
    refine List.mem_filter.mpr ⟨hmem, ?_⟩
    rw [hallow]
    rfl
  · simp only [ScriptBlocker.unblock]
    rw [List.filter_filter, List.filter_filter]
    simp [Bool.and_self, Bool.and_not_self]

/-- Witness for C5 at a concrete withheld-set holding one analytics and
one marketing script. -/
theorem release_analytics_idempotent_witness :
    (("https://www.google-analytics.com/ga.js", gaScript) ∉
        (ScriptBlocker.unblock CategoryManager.defaultRegistry withheldTwo
          cats5).1.blockedScripts ∧
      ScriptBlocker.reactivateScript gaScript ∈
        (ScriptBlocker.unblock CategoryManager.defaultRegistry withheldTwo
          cats5).2) ∧
    ("https://connect.facebook.net/en_US/fbevents.js", fbScript) ∈
      (ScriptBlocker.unblock CategoryManager.defaultRegistry withheldTwo
        cats5).1.blockedScripts :=
  ⟨(release_analytics_idempotent CategoryManager.defaultRegistry withheldTwo
      ("https://www.google-analytics.com/ga.js", gaScript)).1 (by decide)
      (by decide),
    (release_analytics_idempotent CategoryManager.defaultRegistry withheldTwo
      ("https://connect.facebook.net/en_US/fbevents.js", fbScript)).2.1
      (by decide) (by decide)⟩

/-- C7: with a succeeding write and read, `load` after `save` returns
exactly the serialized record, and decoding it yields a record deep-equal
to the one saved. -/
theorem storage_roundtrip (st : StorageManager.Storage) (r : ConsentRecord) :
    StorageManager.load
        (StorageManager.save st (StorageManager.recordToJson r) false) =
      some (StorageManager.recordToJson r) ∧
    StorageManager.decodeRecord (StorageManager.recordToJson r) = some r := by
  constructor
  · rfl
  · show (StorageManager.decodeCats
        (r.categories.map (fun p => (p.1, Json.bool p.2)))).map
        (fun cs =>
          ({ version := r.version, timestamp := r.timestamp,
             categories := cs, userAgent := r.userAgent,
             expiresAt := r.expiresAt } : ConsentRecord)) = some r
    rw [decodeCats_map]
    rfl

/-- C8: the persistence boundary never surfaces a fault: a missing slot,
unparsable stored text, and a schema-invalid stored value (with no
migration) all make `load` return null, and a quota-failing write makes
`save` keep the prior contents — each failure is absorbed inside the
operation instead of reaching the caller. -/
theorem storage_fail_safe (raw : String) (j : Json)
    (st : StorageManager.Storage) (j2 : Json) :
    StorageManager.load none = none ∧
    StorageManager.load (some (.malformed raw)) = none ∧
    (StorageManager.validateSchema j = false →
      StorageManager.load (some (.json j)) = none) ∧
    StorageManager.save st j2 true = st := by
  refine ⟨rfl, rfl, ?_, rfl⟩
  intro h
  show (match (if StorageManager.validateSchema j = true
        then (Except.ok (some j) : Except String (Option Json))
        else Except.ok none) with
    | .ok r => r
    | .error _ => none) = none
  rw [h]
  rfl

/-- Witness for C8 at concrete faulty contents. -/
theorem storage_fail_safe_witness :
    StorageManager.load (some (.json Json.null)) = none :=
  (storage_fail_safe "not json" Json.null none Json.null).2.2.1 rfl

/-- C9: `emit` invokes exactly the handlers subscribed to the event, each
exactly once, in subscription order, whatever each handler does; and a
handler in the middle that throws is caught per-handler — the handlers
before and after it all still run, and the emit call itself returns
normally with the error absorbed into that handler's slot. -/
theorem emit_all_handlers_order (st : EventEmitter.State) (ev : String)
    (d : Option Json) (pre post : List EventEmitter.Handler)
    (h : EventEmitter.Handler) :
    (EventEmitter.emit st ev d).map Prod.fst =
      (EventEmitter.subscribers st ev).map EventEmitter.Handler.id ∧
    (EventEmitter.subscribers st ev = pre ++ h :: post →
      EventEmitter.emit st ev d =
        EventEmitter.emitGo pre d ++
          (h.id, EventEmitter.runCaught h d) :: EventEmitter.emitGo post d) := by
  constructor
  · exact emitGo_map_fst _ _
  · intro hs
    unfold EventEmitter.emit
    rw [hs, emitGo_append]
    rfl

/-- Witness for C9: with a throwing subscriber registered before a healthy
one, emit still runs both in order, recording the caught error. -/
theorem emit_all_handlers_order_witness :
    EventEmitter.emit emitterTwo "consent:update" none =
      EventEmitter.emitGo [] none ++
        (hBoom.id, EventEmitter.runCaught hBoom none) ::
          EventEmitter.emitGo [hOk] none :=
  (emit_all_handlers_order emitterTwo "consent:update" none [] [hOk]
    hBoom).2 rfl

/-- C10: withholding is idempotent and preserves the restoration record —
`processScript` on a script already carrying the withheld type changes
neither the script nor the withheld-set (so a repeated engage/block pass
never overwrites `data-original-type` and never re-inserts the script),
and it preserves the invariant that any `data-original-type` value is an
executable type: never `text/plain` and never empty. -/
theorem withhold_idempotent_original_type (reg : Registry)
    (st : ScriptBlocker.State) (s : Script) :
    (s.stype = "text/plain" →
      ScriptBlocker.processScript reg st s = (st, s)) ∧
    (origTypeSafe s →
      origTypeSafe (ScriptBlocker.processScript reg st s).2) := by
  constructor
  · intro h
    rcases processScript_cases reg st s with hres | ⟨hne, _⟩
    · exact hres
    · exact absurd h hne
  · intro hsafe
    rcases processScript_cases reg st s with hres | ⟨hne, hattrs⟩
    · rw [hres]
      exact hsafe
    · intro v hv
      rw [hattrs] at hv
      simp only at hv
      rw [lookupAssoc_setAssoc_self] at hv
      injection hv with hv2
      subst hv2
      by_cases he : s.stype = ""
      · rw [if_pos he]
        exact ⟨by decide, by decide⟩
      · rw [if_neg he]
        exact ⟨hne, he⟩

/-- Witness for C10: reprocessing an already-withheld inline script is a
no-op, and blocking a fresh script with an empty type records
`text/javascript` — an executable original type. -/
theorem withhold_idempotent_original_type_witness :
    ScriptBlocker.processScript CategoryManager.defaultRegistry
      ScriptBlocker.initState blockedInline =
      (ScriptBlocker.initState, blockedInline) ∧
    origTypeSafe ((ScriptBlocker.processScript
      CategoryManager.defaultRegistry ScriptBlocker.initState
      freshScript).2) :=
  ⟨(withhold_idempotent_original_type CategoryManager.defaultRegistry
      ScriptBlocker.initState blockedInline).1 rfl,
    (withhold_idempotent_original_type CategoryManager.defaultRegistry
      ScriptBlocker.initState freshScript).2
      (fun v hv => absurd ((by decide :
        lookupAssoc freshScript.attrs "data-original-type" = none) ▸ hv)
        (by intro hx; cases hx))⟩
